import Mathlib

/-!
# Sakura map widget (`src/MapComponent.jsx`)

A shallow embedding of the non-presentation logic of the `MapComponent`
React component: the widget state held in the `useState` hooks, the step
tracker `updateCurrentStep`, the geolocation callbacks, `handleSearch`,
`getDirections` and `stripHtml`.

JavaScript numbers are modelled by an arbitrary linearly ordered field `N`
(`ℚ` for concrete runs); `Infinity`, the initial value of `minDistance`, is the
`none` of an `Option N`.  The value `NaN` is outside the model.  The distance
function `getDistanceFromLatLonInMeters` computes on IEEE doubles with the
platform's `Math.sin`, `Math.cos`, `Math.sqrt` and `Math.atan2`; it is not
embedded, and the step tracker takes the distance as a parameter `dist`.
-/

namespace Sakura

/-! ## Data model -/

/-- The `{ lat, lng }` object literal of the source. -/
structure Coord (N : Type) where
  lat : N
  lng : N
deriving DecidableEq, Repr

/-- One element of `stepsArray` (source lines 101-107). -/
structure RouteStep (N : Type) where
  id : Nat
  instruction : String
  distance : String
  duration : String
  location : Coord N
deriving DecidableEq, Repr

/-- The `{ text }` part of a `step.distance` or `step.duration` of the routing response. -/
structure TextValue where
  text : String
deriving DecidableEq, Repr

/-- One step of the routing response; `start_location` holds what
`step.start_location.toJSON()` returns. -/
structure DirectionsStep (N : Type) where
  instructions : String
  distance : TextValue
  duration : TextValue
  start_location : Coord N
deriving DecidableEq, Repr

/-- One leg of a route of the routing response. -/
structure DirectionsLeg (N : Type) where
  steps : List (DirectionsStep N)
deriving DecidableEq, Repr

/-- One route of the routing response. -/
structure DirectionsRoute (N : Type) where
  legs : List (DirectionsLeg N)
deriving DecidableEq, Repr

/-- The `result` object handed to the callback of `service.route`. -/
structure DirectionsResult (N : Type) where
  routes : List (DirectionsRoute N)
deriving DecidableEq, Repr

/-- The values of the `useState` hooks of `MapComponent` (source lines 10-17).
`none` stands for `null` and `undefined`.  The `map` hook only stores the map
object handed to `onLoad` and is read nowhere; it is left out. -/
structure State (N : Type) where
  directions : Option (DirectionsResult N)
  steps : List (RouteStep N)
  currentStepIndex : Option Nat
  currentLocation : Option (Coord N)
  searchLocation : Option (Coord N)
  origin : String
  destination : Option String
  showDirectionsInput : Bool
deriving DecidableEq, Repr

/-- The initial values passed to the `useState` hooks. -/
def State.initial (N : Type) : State N where
  directions := none
  steps := []
  currentStepIndex := none
  currentLocation := none
  searchLocation := none
  origin := ""
  destination := some ""
  showDirectionsInput := false

/-- What a handler does besides setting state. -/
inductive Effect where
  | alert (message : String)
  | consoleWarn (message : String)
  | routeRequest (origin destination travelMode : String)
  | uncaughtTypeError
deriving DecidableEq, Repr

/-! ## Step tracker (`updateCurrentStep`, source lines 40-58) -/

section Tracker

variable {N : Type} [LinearOrderedField N]

/-- The two local variables of `updateCurrentStep` that the `forEach` callback
updates; `minDistance = none` is `Infinity`. -/
structure ScanState (N : Type) where
  minDistance : Option N
  closestIndex : Option Nat
deriving DecidableEq, Repr

/-- The test `distance < minDistance`, where `none` is `Infinity`. -/
def ltMinDistance (distance : N) : Option N → Prop
  | none => True
  | some m => distance < m

instance (distance : N) (m : Option N) : Decidable (ltMinDistance distance m) :=
  match m with
  | none => isTrue trivial
  | some minDistance => decidable_of_iff (distance < minDistance) Iff.rfl

/-- The constant `threshold` of `updateCurrentStep`. -/
def threshold : N := 50

/-- The `distance` computed in the `forEach` callback for one step: the distance
function applied to `location.lat, location.lng, stepLatLng.lat, stepLatLng.lng`. -/
def stepDistance (dist : N → N → N → N → N) (location : Coord N) (step : RouteStep N) : N :=
  let stepLatLng := step.location
  dist location.lat location.lng stepLatLng.lat stepLatLng.lng

/-- The body of the `forEach` callback (source lines 47-55). -/
def visitStep (dist : N → N → N → N → N) (location : Coord N) (acc : ScanState N)
    (step : RouteStep N) (index : Nat) : ScanState N :=
  let distance := stepDistance dist location step
  if ltMinDistance distance acc.minDistance ∧ distance < threshold then
    { minDistance := some distance, closestIndex := some index }
  else acc

/-- The loop `steps.forEach((step, index) => ...)`, run on the steps from position
`index` on. -/
def forEachFrom (dist : N → N → N → N → N) (location : Coord N) :
    List (RouteStep N) → Nat → ScanState N → ScanState N
  | [], _, acc => acc
  | step :: rest, index, acc =>
      forEachFrom dist location rest (index + 1) (visitStep dist location acc step index)

/-- The value of the local `closestIndex` when the `forEach` is over: what
`updateCurrentStep` hands to `setCurrentStepIndex`. -/
def closestIndex (dist : N → N → N → N → N) (location : Coord N)
    (steps : List (RouteStep N)) : Option Nat :=
  (forEachFrom dist location steps 0 { minDistance := none, closestIndex := none }).closestIndex

/-- The function `updateCurrentStep`: with no steps it returns at once and sets
nothing, otherwise it sets `currentStepIndex` to the scan's result. -/
def updateCurrentStep (dist : N → N → N → N → N) (s : State N) (location : Coord N) :
    State N :=
  if s.steps.length = 0 then s
  else { s with currentStepIndex := closestIndex dist location s.steps }

/-- What holds of the scan's two variables once the steps `seen` have been visited:
with no index chosen, `minDistance` is still `Infinity` and no step seen is below the
threshold; with index `i` chosen, step `i` is among those seen, `minDistance` is its
distance, that distance is below the threshold, no step seen is nearer, and every
earlier step is strictly farther. -/
def ScanInv (dist : N → N → N → N → N) (location : Coord N) (seen : List (RouteStep N))
    (acc : ScanState N) : Prop :=
  (acc.closestIndex = none →
    acc.minDistance = none ∧ ∀ st ∈ seen, ¬ stepDistance dist location st < threshold) ∧
  (∀ i, acc.closestIndex = some i →
    ∃ si, seen[i]? = some si ∧ acc.minDistance = some (stepDistance dist location si) ∧
      stepDistance dist location si < threshold ∧
      (∀ st ∈ seen, stepDistance dist location si ≤ stepDistance dist location st) ∧
      (∀ j sj, j < i → seen[j]? = some sj →
        stepDistance dist location si < stepDistance dist location sj))

end Tracker

/-! ## Handlers -/

section Handlers

variable {N : Type} [LinearOrderedField N]

/-- The place object returned by `getPlace()`: `location` is the value of
`place.geometry?.location?.toJSON()`, `formatted_address` that of
`place.formatted_address`; `none` is `undefined`. -/
structure Place (N : Type) where
  location : Option (Coord N)
  formatted_address : Option String
deriving DecidableEq, Repr

/-- The autocomplete object stored in `searchRef.current` or `originRef.current`;
`getPlace` is what its `getPlace()` returns. -/
structure Autocomplete (N : Type) where
  getPlace : Option (Place N)
deriving DecidableEq, Repr

/-- The success callback of `watchPosition` (source lines 23-29).  `numToString` is
the conversion of a number to a string in the template literal. -/
def onPosition (numToString : N → String) (dist : N → N → N → N → N) (s : State N)
    (latitude longitude : N) : State N :=
  let location : Coord N := { lat := latitude, lng := longitude }
  let s1 := { s with currentLocation := some location }
  let s2 := { s1 with origin := numToString latitude ++ "," ++ numToString longitude }
  updateCurrentStep dist s2 location

/-- The error callback of `watchPosition` (source lines 30-33). -/
def onPositionError (s : State N) : State N × List Effect :=
  ({ s with currentLocation := none }, [Effect.consoleWarn "Location access denied."])

/-- The function `handleSearch` (source lines 74-83); `searchRef` is
`searchRef.current`. -/
def handleSearch (s : State N) (searchRef : Option (Autocomplete N)) :
    State N × List Effect :=
  match searchRef with
  | none => (s, [Effect.alert "Please enter a location to search."])
  | some auto =>
    match auto.getPlace with
    | none => (s, [Effect.alert "Please enter a location to search."])
    | some place =>
      ({ s with
          searchLocation := place.location
          destination := place.formatted_address
          showDirectionsInput := false
          directions := none
          steps := [] }, [])

/-- The function `openDirections` (source lines 85-88). -/
def openDirections (s : State N) : State N × List Effect :=
  match s.searchLocation with
  | none => (s, [Effect.alert "Please search for a location first."])
  | some _ => ({ s with showDirectionsInput := true }, [])

/-- The `onPlaceChanged` handler of the origin autocomplete (source line 145):
`setOrigin(originRef.current.getPlace()?.formatted_address || origin)`. -/
def originPlaceChanged (s : State N) (originRef : Autocomplete N) : State N :=
  match originRef.getPlace.bind (fun place => place.formatted_address) with
  | some address => if address = "" then s else { s with origin := address }
  | none => s

/-- The function `stripHtml` (source lines 117-120).  `textContent` is the browser's
`new DOMParser().parseFromString(html, "text/html").body.textContent`. -/
def stripHtml (textContent : String → String) (html : String) : String :=
  if textContent html = "" then "" else textContent html

/-- The callback of `stepsArray`'s `map` (source lines 101-107). -/
def toRouteStep (textContent : String → String) (step : DirectionsStep N) (index : Nat) :
    RouteStep N where
  id := index
  instruction := stripHtml textContent step.instructions
  distance := step.distance.text
  duration := step.duration.text
  location := step.start_location

/-- The call `steps.map((step, index) => ...)`, run on the steps from position
`index` on. -/
def mapFrom (textContent : String → String) :
    List (DirectionsStep N) → Nat → List (RouteStep N)
  | [], _ => []
  | step :: rest, index =>
      toRouteStep textContent step index :: mapFrom textContent rest (index + 1)

/-- The expression `result.routes[0].legs[0]`; `none` when an access fails (a
`TypeError` in the source). -/
def firstLeg (result : Option (DirectionsResult N)) : Option (DirectionsLeg N) :=
  match result with
  | none => none
  | some r =>
    match r.routes with
    | [] => none
    | route :: _ =>
      match route.legs with
      | [] => none
      | leg :: _ => some leg

/-- The callback handed to `service.route` (source lines 97-113), run on the state
`s` of the moment the answer arrives.  When `result.routes[0].legs[0]` cannot be read
the callback stops after `setDirections(result)` with an uncaught `TypeError`: the
step list is not set. -/
def routeCallback (textContent : String → String) (s : State N)
    (result : Option (DirectionsResult N)) (status : String) : State N × List Effect :=
  if status = "OK" then
    let s1 := { s with directions := result }
    match firstLeg result with
    | none => (s1, [Effect.uncaughtTypeError])
    | some leg => ({ s1 with steps := mapFrom textContent leg.steps 0 }, [])
  else (s, [Effect.alert "Error fetching directions"])

/-- The answer of the external routing service. -/
structure RouteResponse (N : Type) where
  result : Option (DirectionsResult N)
  status : String
deriving DecidableEq, Repr

/-- The function `getDirections` (source lines 90-115).  `googleLoaded` is the truth
of `window.google && window.google.maps`, `service` the external routing service
(its arguments: origin, destination, travel mode); the answer is handled at once. -/
def getDirections (textContent : String → String) (googleLoaded : Bool)
    (service : String → String → String → RouteResponse N) (s : State N) :
    State N × List Effect :=
  match s.destination with
  | none => (s, [Effect.alert "Please enter both origin and destination."])
  | some destination =>
    if s.origin = "" ∨ destination = "" then
      (s, [Effect.alert "Please enter both origin and destination."])
    else if googleLoaded = false then
      (s, [Effect.alert "Google Maps API not loaded yet!"])
    else
      let reply := service s.origin destination "DRIVING"
      let after := routeCallback textContent s reply.result reply.status
      (after.1, Effect.routeRequest s.origin destination "DRIVING" :: after.2)

/-! ## The widget as a transition system -/

/-- The events the widget reacts to. -/
inductive Event (N : Type) where
  | position (latitude longitude : N)
  | positionError
  | search (searchRef : Option (Autocomplete N))
  | openDirectionsClick
  | originChanged (originRef : Autocomplete N)
  | directionsReceived (result : Option (DirectionsResult N)) (status : String)

/-- One transition of the widget state. -/
def step (numToString : N → String) (dist : N → N → N → N → N)
    (textContent : String → String) (s : State N) : Event N → State N
  | Event.position latitude longitude => onPosition numToString dist s latitude longitude
  | Event.positionError => (onPositionError s).1
  | Event.search searchRef => (handleSearch s searchRef).1
  | Event.openDirectionsClick => (openDirections s).1
  | Event.originChanged originRef => originPlaceChanged s originRef
  | Event.directionsReceived result status => (routeCallback textContent s result status).1

/-- The state after a sequence of events, oldest first. -/
def run (numToString : N → String) (dist : N → N → N → N → N)
    (textContent : String → String) (s : State N) : List (Event N) → State N
  | [] => s
  | e :: es => run numToString dist textContent (step numToString dist textContent s e) es

/-- The states the widget can be in: those a sequence of events leads to from the
initial state. -/
def Reachable (numToString : N → String) (dist : N → N → N → N → N)
    (textContent : String → String) (s : State N) : Prop :=
  ∃ events : List (Event N), run numToString dist textContent (State.initial N) events = s

/-- The step list `steps` is derived from the leg `leg`: one step per step of the
leg, in the same order, the step at position `i` having id `i`, the stripped
instruction, the distance text, the duration text and the start coordinate of the
leg's step at position `i`. -/
def DerivedFrom (textContent : String → String) (leg : DirectionsLeg N)
    (steps : List (RouteStep N)) : Prop :=
  steps.length = leg.steps.length ∧
  ∀ i ds, leg.steps[i]? = some ds →
    steps[i]? = some
      (RouteStep.mk i (stripHtml textContent ds.instructions) ds.distance.text
        ds.duration.text ds.start_location)

/-- The tracking property of a state: `currentStepIndex` is absent, or it is an index
of the step list whose step is strictly within 50 of the current live location. -/
def TrackingOk (dist : N → N → N → N → N) (s : State N) : Prop :=
  s.currentStepIndex = none ∨
  ∃ i st location, s.currentStepIndex = some i ∧ s.steps[i]? = some st ∧
    s.currentLocation = some location ∧ stepDistance dist location st < 50

end Handlers

/-! ## Concrete parameters for the worked examples -/

/-- The characters of a text that stand outside `<...>`; `inTag` tells whether a
`<` is open. -/
def dropTags : List Char → Bool → List Char
  | [], _ => []
  | c :: cs, true => if c = '>' then dropTags cs false else dropTags cs true
  | c :: cs, false => if c = '<' then dropTags cs true else c :: dropTags cs false

/-- A `textContent` for markup made of tags and plain text (no entities, no
comments): the text outside the tags. -/
def tagFreeText (html : String) : String := String.mk (dropTags html.data false)

/-- A distance for the worked examples: the sum of the differences of latitude and
of longitude.  It is 0 between a coordinate and itself, as the distance of the source
is. -/
def gridDistance (lat1 lon1 lat2 lon2 : ℚ) : ℚ := |lat2 - lat1| + |lon2 - lon1|

/-- A number-to-string conversion for the worked examples: the numerator over the
denominator, the denominator left out when it is 1.  On integers it gives the decimal
digits, as the template literal of the source does. -/
def showRat (q : ℚ) : String :=
  if q.den = 1 then toString q.num else toString q.num ++ "/" ++ toString q.den

/-- A route step at the given coordinate, with empty texts. -/
def stepAt (id : Nat) (lat lng : ℚ) : RouteStep ℚ where
  id := id
  instruction := ""
  distance := ""
  duration := ""
  location := { lat := lat, lng := lng }

/-- A state with three steps at grid distances 10, 60 and 5 from the origin `(0, 0)`. -/
def threeStepState : State ℚ :=
  { State.initial ℚ with steps := [stepAt 0 10 0, stepAt 1 60 0, stepAt 2 5 0] }

/-- A state with four steps at grid distances 7, 5, 5 and 9 from the origin `(0, 0)`. -/
def tiedStepState : State ℚ :=
  { State.initial ℚ with steps := [stepAt 0 7 0, stepAt 1 0 5, stepAt 2 5 0, stepAt 3 9 0] }

/-- A place with a coordinate and an address. -/
def placeAt (lat lng : ℚ) (address : String) : Place ℚ where
  location := some { lat := lat, lng := lng }
  formatted_address := some address

/-- A routing response step starting at the given coordinate. -/
def responseStep (instructions : String) (lat lng : ℚ) : DirectionsStep ℚ where
  instructions := instructions
  distance := { text := "0.1 km" }
  duration := { text := "1 min" }
  start_location := { lat := lat, lng := lng }

/-- A routing result of one route of one leg with the given steps. -/
def resultOf (steps : List (DirectionsStep ℚ)) : DirectionsResult ℚ where
  routes := [{ legs := [{ steps := steps }] }]

/-- A run of the widget: the position `(0, 0)` is reported, a place is searched, the
directions inputs are opened, directions with one step at `(0, 0)` arrive, and the
position `(0, 0)` is reported again, which highlights the step. -/
def routeActive : List (Event ℚ) :=
  [ Event.position 0 0,
    Event.search (some (Autocomplete.mk (some (placeAt 3 4 "Kyoto")))),
    Event.openDirectionsClick,
    Event.directionsReceived (some (resultOf [responseStep "<b>Head north</b>" 0 0])) "OK",
    Event.position 0 0 ]

/-- The state at the end of the run `routeActive`. -/
def trackingState : State ℚ :=
  run showRat gridDistance tagFreeText (State.initial ℚ) routeActive

/-- The run `routeActive` followed by the search of another place. -/
def searchAfterRoute : List (Event ℚ) :=
  routeActive ++ [Event.search (some (Autocomplete.mk (some (placeAt 5 6 "Nara"))))]

/-- The state at the end of the run `searchAfterRoute`. -/
def staleState : State ℚ :=
  run showRat gridDistance tagFreeText (State.initial ℚ) searchAfterRoute

/-- A run of the widget: the position `(0, 0)` is reported, a place is searched, the
directions inputs are opened, and the user picks an origin in the origin search. -/
def originChosen : List (Event ℚ) :=
  [ Event.position 0 0,
    Event.search (some (Autocomplete.mk (some (placeAt 3 4 "Kyoto")))),
    Event.openDirectionsClick,
    Event.originChanged (Autocomplete.mk (some (placeAt 1 2 "Tokyo Station"))) ]

/-- The state at the end of the run `originChosen`. -/
def originChosenState : State ℚ :=
  run showRat gridDistance tagFreeText (State.initial ℚ) originChosen

/-- A state with a live-location origin and an empty destination. -/
def emptyDestinationState : State ℚ :=
  { State.initial ℚ with origin := "0,0", destination := some "" }

/-- A state with origin and destination filled in. -/
def readyState : State ℚ :=
  { State.initial ℚ with origin := "0,0", destination := some "Kyoto" }

/-- A routing service that answers every request with the given response. -/
def constantService (reply : RouteResponse ℚ) : String → String → String → RouteResponse ℚ :=
  fun _ _ _ => reply

/-- A leg of four steps, each with the instruction `<b>Turn left</b>`. -/
def fourTurnsLeg : DirectionsLeg ℚ where
  steps := [responseStep "<b>Turn left</b>" 0 0, responseStep "<b>Turn left</b>" 0 1,
    responseStep "<b>Turn left</b>" 1 1, responseStep "<b>Turn left</b>" 1 0]

/-- A successful routing response whose route has the leg `fourTurnsLeg`. -/
def fourTurnsReply : RouteResponse ℚ where
  result := some { routes := [{ legs := [fourTurnsLeg] }] }
  status := "OK"

/-! ## The step tracker: proofs -/

section TrackerProofs

variable {N : Type} [LinearOrderedField N]

theorem scanInv_nil (dist : N → N → N → N → N) (location : Coord N) :
    ScanInv dist location [] { minDistance := none, closestIndex := none } := by
  constructor
  · intro _
    exact ⟨rfl, by simp⟩
  · intro i h
    simp at h

theorem scanInv_visitStep (dist : N → N → N → N → N) (location : Coord N)
    (seen : List (RouteStep N)) (acc : ScanState N) (x : RouteStep N)
    (h : ScanInv dist location seen acc) :
    ScanInv dist location (seen ++ [x]) (visitStep dist location acc x seen.length) := by
  obtain ⟨minD, ci⟩ := acc
  obtain ⟨hnone, hsome⟩ := h
  cases ci with
  | none =>
    obtain ⟨hmin, hfar⟩ := hnone rfl
    simp only at hmin
    subst hmin
    by_cases hx : stepDistance dist location x < threshold
    · have hv : visitStep dist location { minDistance := none, closestIndex := none } x
          seen.length
          = { minDistance := some (stepDistance dist location x),
              closestIndex := some seen.length } := by
        simp [visitStep, ltMinDistance, hx]
      rw [hv]
      refine ⟨by simp, ?_⟩
      intro i hi
      simp only [Option.some.injEq] at hi
      subst hi
      refine ⟨x, by simp, rfl, hx, ?_, ?_⟩
      · intro st hst
        rcases List.mem_append.mp hst with h1 | h1
        · exact le_of_lt (lt_of_lt_of_le hx (not_lt.mp (hfar st h1)))
        · simp at h1
          subst h1
          exact le_refl _
      · intro j sj hj hsj
        rw [List.getElem?_append_left hj] at hsj
        have hmem : sj ∈ seen := List.getElem?_mem hsj
        exact lt_of_lt_of_le hx (not_lt.mp (hfar sj hmem))
    · have hv : visitStep dist location { minDistance := none, closestIndex := none } x
          seen.length = { minDistance := none, closestIndex := none } := by
        simp [visitStep, hx]
      rw [hv]
      refine ⟨fun _ => ⟨rfl, ?_⟩, by simp⟩
      intro st hst
      rcases List.mem_append.mp hst with h1 | h1
      · exact hfar st h1
      · simp at h1
        subst h1
        exact hx
  | some i =>
    obtain ⟨si, hsi, hmin, hlt, hle, hearlier⟩ := hsome i rfl
    simp only at hmin
    subst hmin
    have hi : i < seen.length := by
      by_contra hcon
      rw [List.getElem?_eq_none (not_lt.mp hcon)] at hsi
      simp at hsi
    by_cases hx : stepDistance dist location x < stepDistance dist location si
    · have hx50 : stepDistance dist location x < threshold := lt_trans hx hlt
      have hv : visitStep dist location
          { minDistance := some (stepDistance dist location si), closestIndex := some i } x
          seen.length
          = { minDistance := some (stepDistance dist location x),
              closestIndex := some seen.length } := by
        simp [visitStep, ltMinDistance, hx, hx50]
      rw [hv]
      refine ⟨by simp, ?_⟩
      intro k hk
      simp only [Option.some.injEq] at hk
      subst hk
      refine ⟨x, by simp, rfl, hx50, ?_, ?_⟩
      · intro st hst
        rcases List.mem_append.mp hst with h1 | h1
        · exact le_of_lt (lt_of_lt_of_le hx (hle st h1))
        · simp at h1
          subst h1
          exact le_refl _
      · intro j sj hj hsj
        rw [List.getElem?_append_left hj] at hsj
        exact lt_of_lt_of_le hx (hle sj (List.getElem?_mem hsj))
    · have hv : visitStep dist location
          { minDistance := some (stepDistance dist location si), closestIndex := some i } x
          seen.length
          = { minDistance := some (stepDistance dist location si),
              closestIndex := some i } := by
        simp [visitStep, ltMinDistance, hx]
      rw [hv]
      refine ⟨by simp, ?_⟩
      intro k hk
      simp only [Option.some.injEq] at hk
      subst hk
      refine ⟨si, ?_, rfl, hlt, ?_, ?_⟩
      · rw [List.getElem?_append_left hi]
        exact hsi
      · intro st hst
        rcases List.mem_append.mp hst with h1 | h1
        · exact hle st h1
        · simp at h1
          subst h1
          exact not_lt.mp hx
      · intro j sj hj hsj
        rw [List.getElem?_append_left (lt_trans hj hi)] at hsj
        exact hearlier j sj hj hsj

theorem scanInv_forEachFrom (dist : N → N → N → N → N) (location : Coord N)
    (rest : List (RouteStep N)) :
    ∀ (seen : List (RouteStep N)) (acc : ScanState N), ScanInv dist location seen acc →
      ScanInv dist location (seen ++ rest)
        (forEachFrom dist location rest seen.length acc) := by
  induction rest with
  | nil =>
    intro seen acc h
    simpa [forEachFrom] using h
  | cons x rest ih =>
    intro seen acc h
    have h1 := ih (seen ++ [x]) _ (scanInv_visitStep dist location seen acc x h)
    simpa [forEachFrom] using h1

theorem scanInv_closestIndex (dist : N → N → N → N → N) (location : Coord N)
    (steps : List (RouteStep N)) :
    ScanInv dist location steps
      (forEachFrom dist location steps 0 { minDistance := none, closestIndex := none }) := by
  have h := scanInv_forEachFrom dist location steps [] _ (scanInv_nil dist location)
  simpa using h

/-- C1: whenever the scan of `updateCurrentStep` ends with index `i` in `closestIndex`,
`updateCurrentStep` stores `i` in `currentStepIndex`, `i` is a valid index of the step
sequence, the distance from the location to step `i` is strictly below 50, and no step
of the sequence has a strictly smaller distance; the distance is any function of the
four coordinates. -/
theorem updateCurrentStep_selects_nearest (dist : N → N → N → N → N) (s : State N)
    (location : Coord N) (i : Nat)
    (h : closestIndex dist location s.steps = some i) :
    (updateCurrentStep dist s location).currentStepIndex = some i ∧
    i < s.steps.length ∧
    ∃ si, s.steps[i]? = some si ∧ stepDistance dist location si < 50 ∧
      ∀ st ∈ s.steps, ¬ stepDistance dist location st < stepDistance dist location si := by
  obtain ⟨si, hsi, _, hlt, hle, _⟩ := (scanInv_closestIndex dist location s.steps).2 i h
  have hi : i < s.steps.length := by
    by_contra hcon
    rw [List.getElem?_eq_none (not_lt.mp hcon)] at hsi
    simp at hsi
  refine ⟨?_, hi, si, hsi, hlt, fun st hst => not_lt.mpr (hle st hst)⟩
  have hne : ¬ s.steps.length = 0 := by omega
  simp [updateCurrentStep, hne, h]

/-- C2 (amended): with a non-empty step sequence, `currentStepIndex` after
`updateCurrentStep` is absent exactly when no step is strictly within 50 of the
location; with an empty step sequence `updateCurrentStep` changes nothing, so
`currentStepIndex` keeps the value it had before. -/
theorem updateCurrentStep_absent_iff (dist : N → N → N → N → N) (s : State N)
    (location : Coord N) :
    (s.steps ≠ [] →
      ((updateCurrentStep dist s location).currentStepIndex = none ↔
        ∀ st ∈ s.steps, ¬ stepDistance dist location st < 50)) ∧
    (s.steps = [] → updateCurrentStep dist s location = s) := by
  constructor
  · intro hne
    have hlen : ¬ s.steps.length = 0 := by
      intro h0
      exact hne (List.length_eq_zero.mp h0)
    have hinv := scanInv_closestIndex dist location s.steps
    have hres : (updateCurrentStep dist s location).currentStepIndex
        = closestIndex dist location s.steps := by
      simp [updateCurrentStep, hlen]
    rw [hres]
    constructor
    · intro hnone
      exact (hinv.1 hnone).2
    · intro hfar
      cases hci : closestIndex dist location s.steps with
      | none => rfl
      | some i =>
        obtain ⟨si, hsi, _, hlt, _, _⟩ := hinv.2 i hci
        exact absurd hlt (hfar si (List.getElem?_mem hsi))
  · intro hnil
    simp [updateCurrentStep, hnil]

/-- C3: when the scan of `updateCurrentStep` ends with index `i` in `closestIndex`,
every step at an index `j < i` has a distance strictly greater than that of step `i`:
among steps sharing the least distance the smallest index is the one selected. -/
theorem updateCurrentStep_first_of_ties (dist : N → N → N → N → N) (s : State N)
    (location : Coord N) (i : Nat)
    (h : closestIndex dist location s.steps = some i) :
    (updateCurrentStep dist s location).currentStepIndex = some i ∧
    ∃ si, s.steps[i]? = some si ∧
      ∀ j sj, j < i → s.steps[j]? = some sj →
        stepDistance dist location si < stepDistance dist location sj := by
  obtain ⟨si, hsi, _, _, _, hearlier⟩ := (scanInv_closestIndex dist location s.steps).2 i h
  have hi : i < s.steps.length := by
    by_contra hcon
    rw [List.getElem?_eq_none (not_lt.mp hcon)] at hsi
    simp at hsi
  have hne : ¬ s.steps.length = 0 := by omega
  exact ⟨by simp [updateCurrentStep, hne, h], si, hsi, hearlier⟩

end TrackerProofs

/-! ## The step tracker: worked examples -/

theorem closestIndex_threeStepState :
    closestIndex gridDistance { lat := 0, lng := 0 } threeStepState.steps = some 2 := by
  norm_num [closestIndex, forEachFrom, visitStep, stepDistance, threeStepState, stepAt,
    gridDistance, ltMinDistance, threshold]

theorem closestIndex_tiedStepState :
    closestIndex gridDistance { lat := 0, lng := 0 } tiedStepState.steps = some 1 := by
  norm_num [closestIndex, forEachFrom, visitStep, stepDistance, tiedStepState, stepAt,
    gridDistance, ltMinDistance, threshold]

theorem trackingState_eval :
    trackingState.steps.length = 1 ∧ trackingState.currentStepIndex = some 0 ∧
    trackingState.currentLocation = some { lat := 0, lng := 0 } := by
  norm_num [trackingState, routeActive, run, step, onPosition, handleSearch, openDirections,
    routeCallback, firstLeg, resultOf, responseStep, mapFrom, toRouteStep, placeAt, updateCurrentStep,
    closestIndex, forEachFrom, visitStep, stepDistance, gridDistance, ltMinDistance,
    threshold, State.initial]

theorem staleState_eval :
    staleState.steps = [] ∧ staleState.currentStepIndex = some 0 := by
  norm_num [staleState, searchAfterRoute, routeActive, run, step, onPosition, handleSearch,
    openDirections, routeCallback, firstLeg, resultOf, responseStep, mapFrom, toRouteStep, placeAt,
    updateCurrentStep, closestIndex, forEachFrom, visitStep, stepDistance, gridDistance,
    ltMinDistance, threshold, State.initial]

/-- C1, worked example: steps at distances 10, 60 and 5 give index 2. -/
theorem updateCurrentStep_selects_nearest_witness :
    closestIndex gridDistance { lat := 0, lng := 0 } threeStepState.steps = some 2 ∧
    ((updateCurrentStep gridDistance threeStepState { lat := 0, lng := 0 }).currentStepIndex
        = some 2 ∧
      2 < threeStepState.steps.length ∧
      ∃ si, threeStepState.steps[2]? = some si ∧
        stepDistance gridDistance { lat := 0, lng := 0 } si < 50 ∧
        ∀ st ∈ threeStepState.steps,
          ¬ stepDistance gridDistance { lat := 0, lng := 0 } st
            < stepDistance gridDistance { lat := 0, lng := 0 } si) :=
  ⟨closestIndex_threeStepState,
    updateCurrentStep_selects_nearest gridDistance threeStepState { lat := 0, lng := 0 } 2
      closestIndex_threeStepState⟩

/-- C3, worked example: steps at distances 7, 5, 5 and 9 give index 1, the first of
the two steps at distance 5. -/
theorem updateCurrentStep_first_of_ties_witness :
    closestIndex gridDistance { lat := 0, lng := 0 } tiedStepState.steps = some 1 ∧
    ((updateCurrentStep gridDistance tiedStepState { lat := 0, lng := 0 }).currentStepIndex
        = some 1 ∧
      ∃ si, tiedStepState.steps[1]? = some si ∧
        ∀ j sj, j < 1 → tiedStepState.steps[j]? = some sj →
          stepDistance gridDistance { lat := 0, lng := 0 } si
            < stepDistance gridDistance { lat := 0, lng := 0 } sj) :=
  ⟨closestIndex_tiedStepState,
    updateCurrentStep_first_of_ties gridDistance tiedStepState { lat := 0, lng := 0 } 1
      closestIndex_tiedStepState⟩

/-- C2, worked example for the amended claim: in `threeStepState` the index is present
and a step is within 50; in `staleState`, whose step list is empty, `updateCurrentStep`
changes nothing. -/
theorem updateCurrentStep_absent_iff_witness :
    threeStepState.steps ≠ [] ∧ staleState.steps = [] ∧
    ((updateCurrentStep gridDistance threeStepState { lat := 0, lng := 0 }).currentStepIndex
        = none ↔
      ∀ st ∈ threeStepState.steps,
        ¬ stepDistance gridDistance { lat := 0, lng := 0 } st < 50) ∧
    updateCurrentStep gridDistance staleState { lat := 1, lng := 1 } = staleState :=
  ⟨by simp [threeStepState], staleState_eval.1,
    (updateCurrentStep_absent_iff gridDistance threeStepState { lat := 0, lng := 0 }).1
      (by simp [threeStepState]),
    (updateCurrentStep_absent_iff gridDistance staleState { lat := 1, lng := 1 }).2
      staleState_eval.1⟩

/-- C2, counterexample: in the state `staleState` the step list is empty, so no step
is within 50 of the location, and yet `currentStepIndex` after `updateCurrentStep` is
the index 0 it held before, not absent. -/
theorem updateCurrentStep_empty_keeps_index :
    staleState.steps = [] ∧
    (∀ st ∈ staleState.steps, ¬ stepDistance gridDistance { lat := 1, lng := 1 } st < 50) ∧
    (updateCurrentStep gridDistance staleState { lat := 1, lng := 1 }).currentStepIndex
      = some 0 := by
  have h := staleState_eval
  refine ⟨h.1, ?_, ?_⟩
  · rw [h.1]
    simp
  · simp [updateCurrentStep, h.1, h.2]

/-! ## Handlers: proofs -/

section HandlerProofs

variable {N : Type}

theorem routeCallback_not_ok (textContent : String → String) (s : State N)
    (result : Option (DirectionsResult N)) (status : String) (h : status ≠ "OK") :
    routeCallback textContent s result status
      = (s, [Effect.alert "Error fetching directions"]) := by
  simp [routeCallback, h]

/-- C5: `getDirections` leaves the state unchanged whenever it reports a failure:
with an empty origin or an empty or missing destination it only raises the alert
asking for both; with the routing capability not loaded it only raises an alert; in
both cases no request goes to the routing service.  With a status other than `OK` the
state is unchanged and an alert is raised, also when the answer arrives in a later
state `s2`. -/
theorem getDirections_failure_keeps_state (textContent : String → String)
    (googleLoaded : Bool) (service : String → String → String → RouteResponse N)
    (s : State N) :
    ((s.origin = "" ∨ s.destination = none ∨ s.destination = some "") →
      getDirections textContent googleLoaded service s
        = (s, [Effect.alert "Please enter both origin and destination."])) ∧
    (googleLoaded = false →
      (getDirections textContent googleLoaded service s).1 = s ∧
      ∃ message, (getDirections textContent googleLoaded service s).2
        = [Effect.alert message]) ∧
    (∀ destination, s.destination = some destination →
      (service s.origin destination "DRIVING").status ≠ "OK" →
      (getDirections textContent googleLoaded service s).1 = s ∧
      ∃ message, Effect.alert message ∈ (getDirections textContent googleLoaded service s).2) ∧
    (∀ (s2 : State N) result status, status ≠ "OK" →
      routeCallback textContent s2 result status
        = (s2, [Effect.alert "Error fetching directions"])) := by
  refine ⟨?_, ?_, ?_, ?_⟩
  · intro h
    rcases h with h | h | h
    · cases hd : s.destination with
      | none => simp [getDirections, hd]
      | some d => simp [getDirections, hd, h]
    · simp [getDirections, h]
    · simp [getDirections, h]
  · intro hl
    cases hd : s.destination with
    | none => simp [getDirections, hd]
    | some d =>
      by_cases he : s.origin = "" ∨ d = ""
      · simp [getDirections, hd, he]
      · simp [getDirections, hd, he, hl]
  · intro d hd hs
    by_cases he : s.origin = "" ∨ d = ""
    · simp [getDirections, hd, he]
    · by_cases hl : googleLoaded = false
      · simp [getDirections, hd, he, hl]
      · simp [getDirections, hd, he, hl, routeCallback_not_ok textContent s _ _ hs]
  · intro s2 result status h
    exact routeCallback_not_ok textContent s2 result status h

theorem mapFrom_spec (textContent : String → String) (l : List (DirectionsStep N)) :
    ∀ k, (mapFrom textContent l k).length = l.length ∧
      ∀ i ds, l[i]? = some ds →
        (mapFrom textContent l k)[i]? = some
          (RouteStep.mk (k + i) (stripHtml textContent ds.instructions) ds.distance.text
            ds.duration.text ds.start_location) := by
  induction l with
  | nil =>
    intro k
    simp [mapFrom]
  | cons x rest ih =>
    intro k
    obtain ⟨hlen, hget⟩ := ih (k + 1)
    refine ⟨by simp [mapFrom, hlen], ?_⟩
    intro i ds hi
    cases i with
    | zero =>
      simp at hi
      subst hi
      simp [mapFrom, toRouteStep]
    | succ j =>
      simp at hi
      have h := hget j ds hi
      simp only [mapFrom, List.getElem?_cons_succ]
      rw [h]
      congr 2
      omega

theorem derivedFrom_mapFrom (textContent : String → String) (leg : DirectionsLeg N) :
    DerivedFrom textContent leg (mapFrom textContent leg.steps 0) := by
  obtain ⟨hlen, hget⟩ := mapFrom_spec textContent leg.steps 0
  refine ⟨hlen, ?_⟩
  intro i ds hi
  have h := hget i ds hi
  simpa using h

/-- C6: for every answer with status `OK` whose `result.routes[0].legs[0]` is the leg
`leg`, the callback of `getDirections` stores the result and a step list derived from
`leg`: one step per step of the leg, in the same order, the step at position `i` with
id `i`, the stripped instruction, the distance text, the duration text and the start
coordinate of the leg's step `i`.  This holds for the callback in any state `s2`, and
for `getDirections` itself when origin and destination are non-empty and the routing
capability is loaded. -/
theorem getDirections_derives_steps (textContent : String → String)
    (service : String → String → String → RouteResponse N)
    (s : State N) (destination : String) (leg : DirectionsLeg N)
    (hdest : s.destination = some destination) (horigin : s.origin ≠ "")
    (hnonempty : destination ≠ "")
    (hstatus : (service s.origin destination "DRIVING").status = "OK")
    (hleg : firstLeg (service s.origin destination "DRIVING").result = some leg) :
    DerivedFrom textContent leg (getDirections textContent true service s).1.steps ∧
    (getDirections textContent true service s).1.directions
      = (service s.origin destination "DRIVING").result ∧
    (getDirections textContent true service s).2
      = [Effect.routeRequest s.origin destination "DRIVING"] ∧
    ∀ (s2 : State N),
      DerivedFrom textContent leg
        (routeCallback textContent s2 (service s.origin destination "DRIVING").result
          "OK").1.steps := by
  have hcb : ∀ s2 : State N,
      routeCallback textContent s2 (service s.origin destination "DRIVING").result "OK"
        = ({ s2 with directions := (service s.origin destination "DRIVING").result,
                     steps := mapFrom textContent leg.steps 0 }, []) := by
    intro s2
    simp [routeCallback, hleg]
  have hgd : getDirections textContent true service s
      = ({ s with directions := (service s.origin destination "DRIVING").result,
                  steps := mapFrom textContent leg.steps 0 },
          [Effect.routeRequest s.origin destination "DRIVING"]) := by
    simp [getDirections, hdest, horigin, hnonempty, hstatus, hcb s]
  refine ⟨?_, ?_, ?_, ?_⟩
  · rw [hgd]
    exact derivedFrom_mapFrom textContent leg
  · rw [hgd]
  · rw [hgd]
  · intro s2
    rw [hcb s2]
    exact derivedFrom_mapFrom textContent leg

/-- C7: for every state and every resolved place, `handleSearch` yields a state with
no stored route, an empty step list, the place's coordinate as search result and the
place's formatted address as destination; it raises no alert. -/
theorem handleSearch_clears_route (s : State N) (place : Place N) :
    (handleSearch s (some { getPlace := some place })).1.directions = none ∧
    (handleSearch s (some { getPlace := some place })).1.steps = [] ∧
    (handleSearch s (some { getPlace := some place })).1.searchLocation = place.location ∧
    (handleSearch s (some { getPlace := some place })).1.destination
      = place.formatted_address ∧
    (handleSearch s (some { getPlace := some place })).2 = [] := by
  simp [handleSearch]

/-- C8 (amended): after the error callback of the location watcher `currentLocation`
is absent and every other part of the state, `currentStepIndex` among them, is what it
was before; the callback only writes a console warning and raises nothing. -/
theorem onPositionError_clears_location_only (s : State N) :
    (onPositionError s).1.currentLocation = none ∧
    (onPositionError s).1.currentStepIndex = s.currentStepIndex ∧
    (onPositionError s).1.steps = s.steps ∧
    (onPositionError s).1.directions = s.directions ∧
    (onPositionError s).1.searchLocation = s.searchLocation ∧
    (onPositionError s).1.origin = s.origin ∧
    (onPositionError s).1.destination = s.destination ∧
    (onPositionError s).1.showDirectionsInput = s.showDirectionsInput ∧
    (onPositionError s).2 = [Effect.consoleWarn "Location access denied."] := by
  simp [onPositionError]

/-- C9 (amended): a location update that leaves a non-empty step list establishes the
tracking property, the reported coordinate being the current location; every other
transition leaves `currentStepIndex` as it was. -/
theorem tracking_after_position [LinearOrderedField N] (numToString : N → String) (dist : N → N → N → N → N)
    (textContent : String → String) (s : State N) :
    (∀ latitude longitude, s.steps ≠ [] →
      (onPosition numToString dist s latitude longitude).currentLocation
        = some { lat := latitude, lng := longitude } ∧
      (onPosition numToString dist s latitude longitude).steps = s.steps ∧
      TrackingOk dist (onPosition numToString dist s latitude longitude)) ∧
    (∀ e : Event N, (∀ latitude longitude, e ≠ Event.position latitude longitude) →
      (step numToString dist textContent s e).currentStepIndex = s.currentStepIndex) := by
  constructor
  · intro latitude longitude hne
    have hlen : ¬ s.steps.length = 0 := by
      intro h0
      exact hne (List.length_eq_zero.mp h0)
    have hpos : onPosition numToString dist s latitude longitude
        = { s with
            currentLocation := some { lat := latitude, lng := longitude }
            origin := numToString latitude ++ "," ++ numToString longitude
            currentStepIndex :=
              closestIndex dist { lat := latitude, lng := longitude } s.steps } := by
      simp [onPosition, updateCurrentStep, hlen]
    rw [hpos]
    refine ⟨rfl, rfl, ?_⟩
    cases hci : closestIndex dist { lat := latitude, lng := longitude } s.steps with
    | none => exact Or.inl rfl
    | some i =>
      obtain ⟨si, hsi, _, hlt, _, _⟩ :=
        (scanInv_closestIndex dist { lat := latitude, lng := longitude } s.steps).2 i hci
      exact Or.inr ⟨i, si, { lat := latitude, lng := longitude }, rfl, hsi, rfl, hlt⟩
  · intro e he
    cases e with
    | position latitude longitude => exact absurd rfl (he latitude longitude)
    | positionError => simp [step, onPositionError]
    | search searchRef =>
      simp only [step, handleSearch]
      split
      · rfl
      · split <;> rfl
    | openDirectionsClick =>
      simp only [step, openDirections]
      split <;> rfl
    | originChanged originRef =>
      simp only [step, originPlaceChanged]
      split
      · split <;> rfl
      · rfl
    | directionsReceived result status =>
      simp only [step, routeCallback]
      split
      · split <;> rfl
      · rfl

theorem onPosition_origin [LinearOrderedField N] (numToString : N → String) (dist : N → N → N → N → N)
    (s : State N) (latitude longitude : N) :
    (onPosition numToString dist s latitude longitude).origin
      = numToString latitude ++ "," ++ numToString longitude := by
  simp only [onPosition, updateCurrentStep]
  split <;> rfl

end HandlerProofs

/-! ## Handlers: worked examples -/

/-- C5, worked example: with an empty destination and the origin `0,0`,
`getDirections` changes nothing and only raises the alert asking for both, whatever
the routing service would answer; with both filled in, an unloaded routing capability
or an answer of status `ZERO_RESULTS` changes nothing either. -/
theorem getDirections_failure_keeps_state_witness :
    getDirections tagFreeText true (constantService fourTurnsReply) emptyDestinationState
      = (emptyDestinationState,
          [Effect.alert "Please enter both origin and destination."]) ∧
    ((getDirections tagFreeText false (constantService fourTurnsReply) readyState).1
        = readyState ∧
      ∃ message,
        (getDirections tagFreeText false (constantService fourTurnsReply) readyState).2
          = [Effect.alert message]) ∧
    ((getDirections tagFreeText true
          (constantService { result := none, status := "ZERO_RESULTS" }) readyState).1
        = readyState ∧
      ∃ message, Effect.alert message ∈
        (getDirections tagFreeText true
          (constantService { result := none, status := "ZERO_RESULTS" }) readyState).2) :=
  ⟨(getDirections_failure_keeps_state tagFreeText true (constantService fourTurnsReply)
      emptyDestinationState).1 (Or.inr (Or.inr rfl)),
    (getDirections_failure_keeps_state tagFreeText false (constantService fourTurnsReply)
      readyState).2.1 rfl,
    (getDirections_failure_keeps_state tagFreeText true
      (constantService { result := none, status := "ZERO_RESULTS" }) readyState).2.2.1
      "Kyoto" rfl (by decide)⟩

theorem fourTurns_eval :
    (getDirections tagFreeText true (constantService fourTurnsReply) readyState).1.steps.map
        (fun st => (st.id, st.instruction))
      = [(0, "Turn left"), (1, "Turn left"), (2, "Turn left"), (3, "Turn left")] := by
  decide

/-- C6, worked example: an answer of status `OK` with four steps whose instructions are
`<b>Turn left</b>` gives four steps with ids 0, 1, 2, 3 and instruction `Turn left`. -/
theorem getDirections_derives_steps_witness :
    (getDirections tagFreeText true (constantService fourTurnsReply) readyState).1.steps.map
        (fun st => (st.id, st.instruction))
      = [(0, "Turn left"), (1, "Turn left"), (2, "Turn left"), (3, "Turn left")] ∧
    (DerivedFrom tagFreeText fourTurnsLeg
        (getDirections tagFreeText true (constantService fourTurnsReply) readyState).1.steps ∧
      (getDirections tagFreeText true (constantService fourTurnsReply) readyState).1.directions
        = (constantService fourTurnsReply readyState.origin "Kyoto" "DRIVING").result ∧
      (getDirections tagFreeText true (constantService fourTurnsReply) readyState).2
        = [Effect.routeRequest readyState.origin "Kyoto" "DRIVING"] ∧
      ∀ (s2 : State ℚ),
        DerivedFrom tagFreeText fourTurnsLeg
          (routeCallback tagFreeText s2
            (constantService fourTurnsReply readyState.origin "Kyoto" "DRIVING").result
            "OK").1.steps) :=
  ⟨fourTurns_eval,
    getDirections_derives_steps tagFreeText (constantService fourTurnsReply) readyState
      "Kyoto" fourTurnsLeg rfl (by decide) (by decide) rfl rfl⟩

/-- C8, counterexample: in the state `trackingState`, reached with a route active and
its step highlighted, the error callback of the location watcher leaves
`currentStepIndex` at 0: it is not true that both `currentLocation` and
`currentStepIndex` are absent afterwards. -/
theorem onPositionError_keeps_index :
    ¬ ((onPositionError trackingState).1.currentLocation = none ∧
       (onPositionError trackingState).1.currentStepIndex = none) := by
  intro h
  have h0 := trackingState_eval.2.1
  have h1 : (onPositionError trackingState).1.currentStepIndex
      = trackingState.currentStepIndex := rfl
  rw [h1, h0] at h
  simp at h

/-- C9, counterexample: the state `staleState` is reachable (position, search,
directions received, position, search) and in it `currentStepIndex` is 0 while the step
list is empty: the tracking property does not hold in every reachable state. -/
theorem tracking_not_invariant :
    ¬ ∀ s : State ℚ, Reachable showRat gridDistance tagFreeText s →
        TrackingOk gridDistance s := by
  intro h
  have hs := h staleState ⟨searchAfterRoute, rfl⟩
  have he := staleState_eval
  rcases hs with hnone | ⟨i, st, _, _, hst, _, _⟩
  · rw [he.2] at hnone
    simp at hnone
  · rw [he.1] at hst
    simp at hst

/-- C9, worked example for the amended claim: a location update at `(0, 0)` in
`threeStepState` establishes the tracking property, and the search that ends the run
`searchAfterRoute` leaves `currentStepIndex` as it was. -/
theorem tracking_after_position_witness :
    TrackingOk gridDistance (onPosition showRat gridDistance threeStepState 0 0) ∧
    (step showRat gridDistance tagFreeText trackingState
        (Event.search (some (Autocomplete.mk (some (placeAt 5 6 "Nara")))))).currentStepIndex
      = trackingState.currentStepIndex :=
  ⟨((tracking_after_position showRat gridDistance tagFreeText threeStepState).1 0 0
      (by simp [threeStepState])).2.2,
    (tracking_after_position showRat gridDistance tagFreeText trackingState).2
      (Event.search (some (Autocomplete.mk (some (placeAt 5 6 "Nara")))))
      (by intro latitude longitude hcon; cases hcon)⟩

theorem originChosenState_origin : originChosenState.origin = "Tokyo Station" := by
  simp [originChosenState, originChosen, run, step, onPosition, handleSearch, openDirections,
    originPlaceChanged, placeAt, updateCurrentStep, State.initial]

/-- C10, failing input: in the state `originChosenState` the user has chosen the origin
`Tokyo Station` in the origin search; the location update `(35, 139)` that follows
replaces it by `35,139`. -/
theorem onPosition_overwrites_chosen_origin :
    Reachable showRat gridDistance tagFreeText originChosenState ∧
    originChosenState.origin = "Tokyo Station" ∧
    (onPosition showRat gridDistance originChosenState 35 139).origin = "35,139" := by
  refine ⟨⟨originChosen, rfl⟩, originChosenState_origin, ?_⟩
  rw [onPosition_origin]
  decide

end Sakura
